import Mathlib

/-!
Verification of the telescope data model of `src/uvdata/telescopes.py`.

The file shallowly embeds the `Telescope` class and the `telescopes()`
registry-construction function. Python floats are modelled as real numbers.
The modules `uvdata.parameter` and `uvdata.utils` are imported by the source
but are not part of the provided sources; the parameter-level notions
(value storage, tolerance equality, validity) are modelled from the spec
where so marked, and the coordinate transforms are taken as abstract
function arguments.
-/

noncomputable section

/-- A stored parameter value: either a string or a numeric (float) payload. -/
inductive PValue where
  | str : String → PValue
  | num : ℝ → PValue

/-- The declared shape/category constraint of a parameter: a string field or a
numeric scalar field (the only two forms the Telescope class uses). -/
inductive PForm where
  | str : PForm
  | scalar : PForm
deriving DecidableEq

/-- Modelled from the spec: the UVParameter attribute holder of
`uvdata.parameter` (not among the provided sources): a name, a form, an
absolute numeric tolerance, an optional stored value (none while unset) and a
required flag. The description string is not behaviour-affecting and is
omitted. -/
structure UVParameter where
  name : String
  form : PForm
  tols : ℝ
  value : Option PValue
  required : Bool

/-- Modelled from the spec: parameter equality of `uvdata.parameter` (not
among the provided sources), per spec section 3: same name, same declared
form, and values match — exactly for strings, within the tolerance for
numeric values; two unset parameters agree. -/
def UVParameter.pEq (p q : UVParameter) : Prop :=
  p.name = q.name ∧ p.form = q.form ∧
    match p.value, q.value with
    | some (PValue.str a), some (PValue.str b) => a = b
    | some (PValue.num a), some (PValue.num b) => |a - b| ≤ p.tols
    | none, none => True
    | _, _ => False

/-- The eight parameter attributes of the Telescope class, listed by their
private attribute names. -/
inductive ParamId where
  | altitude : ParamId
  | latitude : ParamId
  | longitude : ParamId
  | telescope_name : ParamId
  | x_telescope : ParamId
  | xyz_telescope_frame : ParamId
  | y_telescope : ParamId
  | z_telescope : ParamId
deriving DecidableEq

/-- A Telescope instance: its per-instance parameter attributes, indexed by
the private parameter name. -/
def Telescope : Type := ParamId → UVParameter

/-- The Telescope constructor of the source: each parameter with its name,
form and tolerance exactly as built in Telescope.__init__ (tols 1e-3 metres
for the Cartesian coordinates and the altitude; 2*pi*1e-3/(60*60*24) radians
for latitude and longitude, the source comment calling that value one
milliarcsecond). All values start unset; all parameters are required. -/
def Telescope.init : Telescope := fun i =>
  match i with
  | ParamId.telescope_name => ⟨"telescope_name", PForm.str, 0, none, true⟩
  | ParamId.xyz_telescope_frame => ⟨"xyz_telescope_frame", PForm.str, 0, none, true⟩
  | ParamId.x_telescope => ⟨"x_telescope", PForm.scalar, 1e-3, none, true⟩
  | ParamId.y_telescope => ⟨"y_telescope", PForm.scalar, 1e-3, none, true⟩
  | ParamId.z_telescope => ⟨"z_telescope", PForm.scalar, 1e-3, none, true⟩
  | ParamId.latitude =>
      ⟨"latitude", PForm.scalar, 2 * Real.pi * 1e-3 / (60 * 60 * 24), none, true⟩
  | ParamId.longitude =>
      ⟨"longitude", PForm.scalar, 2 * Real.pi * 1e-3 / (60 * 60 * 24), none, true⟩
  | ParamId.altitude => ⟨"altitude", PForm.scalar, 1e-3, none, true⟩

/-- The parameter_iter generator of the source: the parameter attributes in
the order dir(self) yields them (alphabetical on the private names). -/
def parameter_iter : List ParamId :=
  [ParamId.altitude, ParamId.latitude, ParamId.longitude, ParamId.telescope_name,
   ParamId.x_telescope, ParamId.xyz_telescope_frame, ParamId.y_telescope,
   ParamId.z_telescope]

/-- Replace one parameter attribute of an instance (the setattr of the
source's property setter). -/
def setParam (t : Telescope) (i : ParamId) (p : UVParameter) : Telescope :=
  fun j => if j = i then p else t j

/-- A parameter with its value replaced (the parameter object's value
assignment inside prop_fset). -/
def withValue (p : UVParameter) (v : Option PValue) : UVParameter :=
  ⟨p.name, p.form, p.tols, v, p.required⟩

/-- The generated property getter of the source (prop_fget): closes over the
private parameter name and reads the named parameter of the instance it is
applied to, returning its value. -/
def prop_fget (i : ParamId) : Telescope → Option PValue :=
  fun self => (self i).value

/-- The generated property setter of the source (prop_fset): closes over the
private parameter name, stores the value into the named parameter of the
instance it is applied to, and writes the parameter back onto that instance. -/
def prop_fset (i : ParamId) : Telescope → Option PValue → Telescope :=
  fun self v => setParam self i (withValue (self i) v)

/-- The class-level property table: the source installs, per attribute name,
one (fget, fset) pair on the shared class object; every instance access goes
through this one table. -/
def classProps (i : ParamId) : (Telescope → Option PValue) × (Telescope → Option PValue → Telescope) :=
  (prop_fget i, prop_fset i)

/-- Set a parameter value on an instance through the class property table
(the effect of `obj.attr = value` in the source). -/
def setVal (t : Telescope) (i : ParamId) (v : PValue) : Telescope :=
  (classProps i).2 t (some v)

/-- The body of the comparison loop of Telescope.__eq__ (source lines 80-90):
walk the parameter list, conjoining per-parameter equality into the isequal
flag without ever breaking out of the loop; the second component records the
parameters the loop examined, in order. -/
def eqLoopGo (t u : Telescope) : List ParamId → Prop × List ParamId
  | [] => (True, [])
  | p :: rest =>
      let r := eqLoopGo t u rest
      (UVParameter.pEq (t p) (u p) ∧ r.1, p :: r.2)

/-- The comparison loop of Telescope.__eq__ run over the full parameter
iteration. -/
def Telescope.eqLoop (t u : Telescope) : Prop × List ParamId :=
  eqLoopGo t u parameter_iter

/-- The right-hand operand of a comparison: either another Telescope
instance, or an object of any other class (carrying only a tag). -/
inductive Operand where
  | tel : Telescope → Operand
  | other : String → Operand

/-- Telescope.__eq__ of the source: against another Telescope it returns the
loop's flag and prints nothing; against any other class it prints the
diagnostic line and returns False. The second component is the printed
output. -/
def Telescope.eq (t : Telescope) (o : Operand) : Prop × List String :=
  match o with
  | Operand.tel u => ((Telescope.eqLoop t u).1, [])
  | Operand.other _ => (False, ["Classes do not match"])

/-- Telescope.__ne__ of the source: the boolean negation of __eq__ applied
to the same operands, with the same printed output. -/
def Telescope.ne (t : Telescope) (o : Operand) : Prop × List String :=
  (¬ (Telescope.eq t o).1, (Telescope.eq t o).2)

/-- Claim C1: comparing two Telescope instances yields true iff every
parameter pair matched by name compares equal; comparing against an operand
of a different class yields false without raising, and that case is
observably distinct from a same-kind mismatch: it alone prints the
"Classes do not match" diagnostic, while same-kind comparisons print
nothing. -/
theorem telescope_eq_matches_by_name_and_kind_distinct (t u : Telescope) (s : String) :
    ((Telescope.eq t (Operand.tel u)).1 ↔
      ∀ p ∈ parameter_iter, UVParameter.pEq (t p) (u p)) ∧
    (Telescope.eq t (Operand.tel u)).2 = [] ∧
    ¬ (Telescope.eq t (Operand.other s)).1 ∧
    (Telescope.eq t (Operand.other s)).2 = ["Classes do not match"] := by
  refine ⟨?_, rfl, not_false, rfl⟩
  simp only [Telescope.eq, Telescope.eqLoop, parameter_iter, eqLoopGo,
    List.mem_cons, List.not_mem_nil, or_false, forall_eq_or_imp, forall_eq,
    and_true, true_and]

/-- Claim C7: the comparison of two same-kind Telescope instances examines
every parameter — the loop's examined-parameter trace is the full parameter
iteration for every pair of instances, mismatches included (no
short-circuit) — and the comparison always has a definite boolean outcome
(it is a total function that cannot raise). -/
theorem eq_examines_all_parameters (t u : Telescope) :
    (Telescope.eqLoop t u).2 = parameter_iter ∧
    ((Telescope.eq t (Operand.tel u)).1 ∨ ¬ (Telescope.eq t (Operand.tel u)).1) :=
  ⟨rfl, Classical.em _⟩

/-- Claim C10: for every instance and every operand, __ne__ returns exactly
the boolean negation of __eq__ on the same operands. -/
theorem ne_is_not_eq (t : Telescope) (o : Operand) :
    (Telescope.ne t o).1 ↔ ¬ (Telescope.eq t o).1 :=
  Iff.rfl

/-- A heap of Telescope instances, one per address: the source's properties
live on the shared class object, but each instance stores its own parameter
attributes. -/
def Heap : Type := Nat → Telescope

/-- Write a field of the instance at one address through the shared
class-level property table (the setter closes over the parameter name and
mutates only the instance it is applied to). -/
def heapSet (h : Heap) (addr : Nat) (i : ParamId) (v : Option PValue) : Heap :=
  fun a => if a = addr then (classProps i).2 (h addr) v else h a

/-- Read a field of the instance at one address through the shared
class-level property table. -/
def heapGet (h : Heap) (addr : Nat) (i : ParamId) : Option PValue :=
  (classProps i).1 (h addr)

/-- Claim C9: setting any parameter field on one Telescope instance leaves
every field of every other instance unchanged, even though the generated
accessors sit on the shared class object — each accessor delegates to the
per-instance parameter attribute of the instance it is applied to. -/
theorem instance_set_frame_independent (h : Heap) (a b : Nat) (hab : a ≠ b)
    (i j : ParamId) (v : Option PValue) :
    heapGet (heapSet h a i v) b j = heapGet h b j := by
  simp only [heapGet, heapSet, classProps, prop_fget]
  rw [if_neg (Ne.symm hab)]

/-- Witness for C9 at a concrete two-instance heap: writing latitude on the
instance at address 0 leaves the latitude stored at address 1 unchanged. -/
theorem instance_set_frame_independent_witness :
    heapGet (heapSet (fun _ => Telescope.init) 0 ParamId.latitude (some (PValue.num 1)))
        1 ParamId.latitude =
      heapGet (fun _ => Telescope.init) 1 ParamId.latitude :=
  instance_set_frame_independent (fun _ => Telescope.init) 0 1 (by decide)
    ParamId.latitude ParamId.latitude (some (PValue.num 1))

/-- One milliarcsecond in radians: pi / (180 * 3600 * 1000). -/
def masRad : ℝ := Real.pi / 648000000

/-- Claim C3 (evaluation of the source constant): the tolerance the
constructor attaches to latitude and longitude, 2*pi*1e-3/(60*60*24), equals
exactly 15 milliarcseconds in radians — not the one milliarcsecond the
source comment claims, and more than an order of magnitude above
4.85e-9 rad. In particular it is strictly larger than one milliarcsecond,
and two latitude parameters whose values differ by a full 10
milliarcseconds still compare equal, so the tolerance cannot discriminate
sub-milliarcsecond differences. -/
theorem latlon_tol_is_15_mas :
    (Telescope.init ParamId.latitude).tols = 15 * masRad ∧
    (Telescope.init ParamId.longitude).tols = 15 * masRad ∧
    masRad < (Telescope.init ParamId.latitude).tols ∧
    UVParameter.pEq
      (withValue (Telescope.init ParamId.latitude) (some (PValue.num 0)))
      (withValue (Telescope.init ParamId.latitude) (some (PValue.num (10 * masRad)))) := by
  have hpi : (0:ℝ) < Real.pi := Real.pi_pos
  have htol : (Telescope.init ParamId.latitude).tols = 15 * masRad := by
    show 2 * Real.pi * 1e-3 / (60 * 60 * 24) = 15 * (Real.pi / 648000000)
    norm_num
    ring
  refine ⟨htol, ?_, ?_, ?_⟩
  · exact htol
  · rw [htol]
    unfold masRad
    nlinarith
  · refine ⟨rfl, rfl, ?_⟩
    show |(0:ℝ) - 10 * masRad| ≤ 2 * Real.pi * 1e-3 / (60 * 60 * 24)
    have h10 : (0:ℝ) ≤ 10 * masRad := by unfold masRad; positivity
    rw [zero_sub, abs_neg, abs_of_nonneg h10]
    unfold masRad
    nlinarith

/-- One entry of the static table inside the telescopes() function: the keys
the source dictionaries carry. A field is none when the key is absent from
the dictionary. -/
structure TelEntry where
  name : String
  frame : Option String
  center_xyz : Option (List ℝ)
  latitude : Option ℝ
  longitude : Option ℝ
  altitude : Option ℝ

/-- The per-entry construction loop body of telescopes() (source lines
112-150), translated line by line. The coordinate transforms
utils.XYZ_from_LatLonAlt and utils.LatLonAlt_from_XYZ live in uvdata.utils,
which is not among the provided sources, so they are taken as abstract
function arguments. Faithful details kept from the source: in the
Cartesian branch the frame and the three center components are stored
before any check of the geodetic keys; when both the Cartesian keys and all
three geodetic keys are present no frame validation happens at all; the
frame is compared against ITRF only when a geodetic value must be derived;
and in the geodetic-only branch line 141 assigns obj.latitude a second time
instead of assigning obj.altitude, so the altitude parameter is never set
there. Out-of-range center indexing is rendered as an IndexError result and
the raise statements as error results. -/
def buildTelescope (xyzF : ℝ → ℝ → ℝ → ℝ × ℝ × ℝ) (llaF : List ℝ → ℝ × ℝ × ℝ)
    (e : TelEntry) : Except String Telescope :=
  let obj := setVal Telescope.init ParamId.telescope_name (PValue.str e.name)
  match e.center_xyz, e.frame with
  | some cxyz, some fr =>
      let obj := setVal obj ParamId.xyz_telescope_frame (PValue.str fr)
      match cxyz[0]?, cxyz[1]?, cxyz[2]? with
      | some x, some y, some z =>
          let obj := setVal obj ParamId.x_telescope (PValue.num x)
          let obj := setVal obj ParamId.y_telescope (PValue.num y)
          let obj := setVal obj ParamId.z_telescope (PValue.num z)
          match e.latitude, e.longitude, e.altitude with
          | some la, some lo, some al =>
              let obj := setVal obj ParamId.latitude (PValue.num la)
              let obj := setVal obj ParamId.longitude (PValue.num lo)
              Except.ok (setVal obj ParamId.altitude (PValue.num al))
          | _, _, _ =>
              if fr = "ITRF" then
                let lla := llaF cxyz
                let obj := setVal obj ParamId.latitude (PValue.num lla.1)
                let obj := setVal obj ParamId.longitude (PValue.num lla.2.1)
                Except.ok (setVal obj ParamId.altitude (PValue.num lla.2.2))
              else
                Except.error
                  "latitude, longitude or altitude not specified and frame is not ITRF"
      | _, _, _ => Except.error "IndexError: list index out of range"
  | _, _ =>
      match e.latitude, e.longitude, e.altitude with
      | some la, some lo, some al =>
          let obj := setVal obj ParamId.latitude (PValue.num la)
          let obj := setVal obj ParamId.longitude (PValue.num lo)
          let obj := setVal obj ParamId.latitude (PValue.num la)
          let xyz := xyzF la lo al
          let obj := setVal obj ParamId.xyz_telescope_frame (PValue.str "ITRF")
          let obj := setVal obj ParamId.x_telescope (PValue.num xyz.1)
          let obj := setVal obj ParamId.y_telescope (PValue.num xyz.2.1)
          Except.ok (setVal obj ParamId.z_telescope (PValue.num xyz.2.2))
      | _, _, _ =>
          Except.error
            "either the center_xyz and frame or the latitude, longitude and altitude of the telescope must be specified"

/-- Claim C4 (evaluation at the geodetic-only entry shape): for a registry
entry that supplies latitude, longitude and altitude but no Cartesian
center, construction succeeds and the produced Telescope carries the
supplied name, latitude and longitude, frame ITRF, and x, y, z equal to the
components of the coordinate transform of the supplied geodetic position —
but its altitude parameter is left unset, because source line 141 assigns
obj.latitude a second time where the altitude assignment was intended. -/
theorem geodetic_entry_altitude_unset (xyzF : ℝ → ℝ → ℝ → ℝ × ℝ × ℝ)
    (llaF : List ℝ → ℝ × ℝ × ℝ) (n : String) (la lo al : ℝ) :
    ∃ t : Telescope,
      buildTelescope xyzF llaF ⟨n, none, none, some la, some lo, some al⟩ = Except.ok t ∧
      (t ParamId.telescope_name).value = some (PValue.str n) ∧
      (t ParamId.latitude).value = some (PValue.num la) ∧
      (t ParamId.longitude).value = some (PValue.num lo) ∧
      (t ParamId.altitude).value = none ∧
      (t ParamId.xyz_telescope_frame).value = some (PValue.str "ITRF") ∧
      (t ParamId.x_telescope).value = some (PValue.num (xyzF la lo al).1) ∧
      (t ParamId.y_telescope).value = some (PValue.num (xyzF la lo al).2.1) ∧
      (t ParamId.z_telescope).value = some (PValue.num (xyzF la lo al).2.2) :=
  ⟨_, rfl, rfl, rfl, rfl, rfl, rfl, rfl, rfl, rfl⟩

/-- The HERA entry of the static table (source lines 103-104), as far as the
source parses: the name and frame values are present, the center_xyz value
is the empty list, and the latitude, longitude and altitude values are
syntactically missing from the source dictionary literal, rendered here as
absent. -/
def heraEntry : TelEntry := ⟨"HERA", some "ITRF", some [], none, none, none⟩

/-- The value the telescopes() function call evaluates to: the source builds
a local dictionary of Telescope objects but the function body contains no
return statement, so the call returns None. -/
def telescopesReturn : Option (List (String × Telescope)) := none

/-- Claim C5 (evaluation at the source's own HERA entry): building the HERA
registry entry fails — its center_xyz list is empty, so indexing the first
center component fails — and the telescopes() call itself returns no
registry at all, so no name lookup on its result can succeed. -/
theorem registry_build_fails_on_source_table (xyzF : ℝ → ℝ → ℝ → ℝ × ℝ × ℝ)
    (llaF : List ℝ → ℝ × ℝ × ℝ) :
    buildTelescope xyzF llaF heraEntry = Except.error "IndexError: list index out of range" ∧
    telescopesReturn = none :=
  ⟨rfl, rfl⟩

/-- Counterexample to claim C6: an entry that supplies Cartesian input with
the unsupported frame FOO, together with geodetic values, constructs
successfully — no frame validation happens and no UnsupportedFrame failure
is raised; the produced Telescope even carries the frame FOO. -/
theorem frame_not_validated_when_geodetic_supplied :
    ∃ t : Telescope,
      buildTelescope (fun _ _ _ => ((0:ℝ), (0:ℝ), (0:ℝ))) (fun _ => ((0:ℝ), (0:ℝ), (0:ℝ)))
          ⟨"X", some "FOO", some [1, 2, 3], some 0, some 0, some 0⟩ = Except.ok t ∧
      (t ParamId.xyz_telescope_frame).value = some (PValue.str "FOO") :=
  ⟨_, rfl, rfl⟩

/-- Claim C6 as amended: the frame is validated only when Cartesian input is
supplied and at least one of latitude, longitude, altitude is absent; in
that case, before any geodetic derivation (the result is the same error for
every choice of the derivation function), construction fails with the
frame-related error unless the frame is ITRF. -/
theorem frame_checked_only_when_deriving (xyzF : ℝ → ℝ → ℝ → ℝ × ℝ × ℝ)
    (llaF : List ℝ → ℝ × ℝ × ℝ) (nm fr : String) (a b c : ℝ) (rest : List ℝ)
    (la lo al : Option ℝ)
    (hmiss : la = none ∨ lo = none ∨ al = none) (hfr : fr ≠ "ITRF") :
    buildTelescope xyzF llaF ⟨nm, some fr, some (a :: b :: c :: rest), la, lo, al⟩ =
      Except.error "latitude, longitude or altitude not specified and frame is not ITRF" := by
  rcases la with _ | la <;> rcases lo with _ | lo <;> rcases al with _ | al <;>
    simp_all [buildTelescope]

/-- Witness for the amended C6 at a concrete entry: Cartesian input with
frame FOO and no geodetic values fails with the frame error. -/
theorem frame_checked_only_when_deriving_witness :
    buildTelescope (fun _ _ _ => ((0:ℝ), (0:ℝ), (0:ℝ))) (fun _ => ((0:ℝ), (0:ℝ), (0:ℝ)))
        ⟨"X", some "FOO", some [1, 2, 3], none, none, none⟩ =
      Except.error "latitude, longitude or altitude not specified and frame is not ITRF" :=
  frame_checked_only_when_deriving (fun _ _ _ => ((0:ℝ), (0:ℝ), (0:ℝ)))
    (fun _ => ((0:ℝ), (0:ℝ), (0:ℝ))) "X" "FOO" 1 2 3 [] none none none
    (Or.inl rfl) (by decide)

/-- Modelled from the spec: individual parameter validity (the validation of
uvdata.parameter is not among the provided sources, and the Telescope class
defines no validity operation itself): a parameter is individually valid
when its stored value is set and satisfies its declared form — a string
value for a string-form parameter, a numeric value for a scalar-form
parameter. -/
def UVParameter.valid (p : UVParameter) : Bool :=
  match p.value, p.form with
  | some (PValue.str _), PForm.str => true
  | some (PValue.num _), PForm.scalar => true
  | _, _ => false

/-- Modelled from the spec: the isValid entity operation of spec section 4.3
over the Telescope parameter set: true iff every required parameter is set
and individually valid. A total boolean function; it cannot raise. -/
def Telescope.isValid (t : Telescope) : Bool :=
  parameter_iter.all fun i => !(t i).required || UVParameter.valid (t i)

/-- Unset one parameter of an instance (clear its stored value). -/
def unsetParam (t : Telescope) (i : ParamId) : Telescope :=
  setParam t i (withValue (t i) none)

/-- A valid parameter has a stored value. -/
theorem UVParameter.valid_isSome (p : UVParameter) (h : UVParameter.valid p = true) :
    p.value.isSome = true := by
  unfold UVParameter.valid at h
  rcases hv : p.value with _ | v
  · rw [hv] at h
    exact absurd h (by simp)
  · rfl

/-- Every parameter attribute occurs in the parameter iteration. -/
theorem mem_parameter_iter (i : ParamId) : i ∈ parameter_iter := by
  cases i <;> simp [parameter_iter]

/-- Claim C8: for every instance, isValid is true iff every required
parameter is set and individually valid, and unsetting any required
parameter flips it to false. (The operation is a total boolean function, so
it cannot raise.) -/
theorem isValid_spec (t : Telescope) (i : ParamId)
    (hreq : (t i).required = true) :
    (Telescope.isValid t = true ↔
      ∀ j ∈ parameter_iter, (t j).required = true →
        ((t j).value.isSome = true ∧ UVParameter.valid (t j) = true)) ∧
    Telescope.isValid (unsetParam t i) = false := by
  constructor
  · rw [Telescope.isValid, List.all_eq_true]
    constructor
    · intro h j hj hjr
      have := h j hj
      rw [hjr] at this
      simp only [Bool.not_true, Bool.false_or] at this
      exact ⟨UVParameter.valid_isSome _ this, this⟩
    · intro h j hj
      rcases hr : (t j).required with _ | _
      · simp [hr]
      · simpa [hr] using (h j hj hr).2
  · rw [Telescope.isValid]
    rw [Bool.eq_false_iff]
    intro hall
    rw [List.all_eq_true] at hall
    have := hall i (mem_parameter_iter i)
    have hup : unsetParam t i i = withValue (t i) none := by
      unfold unsetParam setParam
      simp
    rw [hup] at this
    have hreq2 : (withValue (t i) none).required = true := hreq
    rw [hreq2] at this
    simp only [Bool.not_true, Bool.false_or] at this
    have : (withValue (t i) none).value.isSome = true := UVParameter.valid_isSome _ this
    simp [withValue] at this

/-- A fully populated Telescope instance: every parameter set to a value of
its declared form. -/
def fullTel : Telescope :=
  setVal (setVal (setVal (setVal (setVal (setVal (setVal (setVal Telescope.init
    ParamId.telescope_name (PValue.str "T")) ParamId.xyz_telescope_frame (PValue.str "ITRF"))
    ParamId.x_telescope (PValue.num 0)) ParamId.y_telescope (PValue.num 0))
    ParamId.z_telescope (PValue.num 0)) ParamId.latitude (PValue.num 0))
    ParamId.longitude (PValue.num 0)) ParamId.altitude (PValue.num 0)

/-- Witness for C8 at a concrete instance: the fully populated instance is
valid, and unsetting its required latitude parameter flips isValid to
false. -/
theorem isValid_spec_witness :
    Telescope.isValid fullTel = true ∧
    Telescope.isValid (unsetParam fullTel ParamId.latitude) = false :=
  ⟨rfl, (isValid_spec fullTel ParamId.latitude rfl).2⟩
